import Mathlib

/-!
Verification of `src/src/components/shared/EntityEmailHistory.tsx`.

The file contains two React components: `EntityEmailHistory` (an email-activity
viewer) and `DashboardCustomizeModal` (a widget-customization dialog).  The
pure logic of the component file is embedded below as executable Lean
functions over `List Char` / `String` / `List` data; stateful handlers are
embedded as explicit state-transition functions (previous state in, next state
out).  JavaScript strings are modelled as `List Char` of Unicode scalar
values; where the source relies on the UTF-16 `.length` of a string, the
embedding uses `utf16Len`, which counts UTF-16 code units.
-/

/-! ## JavaScript string primitives used by `cleanBounceReason` -/

/-- The character class `\s` of JavaScript regular expressions (also the set
trimmed by `String.prototype.trim`): ASCII whitespace, NBSP, the Unicode
space separators, the line terminators, and the BOM. -/
def jsWhitespace (c : Char) : Bool :=
  c == ' ' || c == '\t' || c == '\n' || c == '\r' ||
  c.val == 11 || c.val == 12 || c.val == 0xa0 || c.val == 0x1680 ||
  (0x2000 ≤ c.val && c.val ≤ 0x200a) ||
  c.val == 0x2028 || c.val == 0x2029 || c.val == 0x202f || c.val == 0x205f ||
  c.val == 0x3000 || c.val == 0xfeff

/-- JavaScript line terminators (the characters `.` does not match in a
regular expression without the `s` flag). -/
def lineTerminator (c : Char) : Bool :=
  c == '\n' || c == '\r' || c.val == 0x2028 || c.val == 0x2029

/-- Case folding of `/i`-flagged regex matching, restricted to ASCII letters.
In a non-Unicode-mode JavaScript regex a non-ASCII character never
canonicalizes to an ASCII one, and every pattern in the source is ASCII, so
ASCII folding of both sides models `/i` matching exactly. -/
def lowerAscii (c : Char) : Char :=
  if 65 ≤ c.val ∧ c.val ≤ 90 then Char.ofNat (c.toNat + 32) else c

/-- State machine for `reason.replace(/<[^>]*>/g, ' ')`: while outside a
candidate tag, characters pass through; a `<` starts buffering; a `>` ends the
match, which is replaced by a single space; an unterminated `<...` tail has no
closing `>` anywhere, so the regex never matches in it and it is emitted
verbatim (the buffer holds it in reverse). -/
def stripTagsGo : List Char → Bool → List Char → List Char
  | [], false, _ => []
  | [], true, buf => buf.reverse
  | c :: rest, false, _ =>
      if c == '<' then stripTagsGo rest true [c] else c :: stripTagsGo rest false []
  | c :: rest, true, buf =>
      if c == '>' then ' ' :: stripTagsGo rest false [] else stripTagsGo rest true (c :: buf)

/-- `s.replace(/<[^>]*>/g, ' ')` on the character list of `s`. -/
def stripTags (l : List Char) : List Char := stripTagsGo l false []

/-- State machine for `.replace(/\s+/g, ' ')`: every maximal run of
whitespace becomes a single space; the flag records whether the previous
character was part of a whitespace run. -/
def collapseWsGo : List Char → Bool → List Char
  | [], _ => []
  | c :: rest, prevWs =>
      if jsWhitespace c then
        if prevWs then collapseWsGo rest true else ' ' :: collapseWsGo rest true
      else c :: collapseWsGo rest false

/-- `.replace(/\s+/g, ' ')` on a character list. -/
def collapseWs (l : List Char) : List Char := collapseWsGo l false

/-- `String.prototype.trim`: strip leading and trailing whitespace. -/
def jsTrim (l : List Char) : List Char :=
  ((l.dropWhile jsWhitespace).reverse.dropWhile jsWhitespace).reverse

/-- `pat` occurs as a contiguous subsequence of the argument (the test
performed by matching a regex made only of literal characters). -/
def containsSeq (pat : List Char) : List Char → Bool
  | [] => pat.isEmpty
  | c :: rest => pat.isPrefixOf (c :: rest) || containsSeq pat rest

/-- Case-insensitive substring test: `/pat/i.test(l)` for a literal ASCII
pattern `pat`. -/
def containsCI (pat : List Char) (l : List Char) : Bool :=
  containsSeq (pat.map lowerAscii) (l.map lowerAscii)

/-- UTF-16 code-unit count of a character list; this is what the `.length`
of the corresponding JavaScript string returns. -/
def utf16Len (l : List Char) : Nat :=
  l.foldl (fun n c => n + (if c.val < 0x10000 then 1 else 2)) 0

/-! ## `cleanBounceReason` (source lines 109–157) -/

/-- The eight literal patterns of the `patterns` array of
`cleanBounceReason`; each is matched case-insensitively as a substring.
The ninth pattern, `/delivery.*failed/i`, is not a literal and is handled by
`deliveryFailedSearch`.  (In the source it sits between `invalid recipient`
and `undeliverable`; since every pattern produces the same return value, the
order of the tests does not affect the result.) -/
def failurePatterns : List (List Char) :=
  ["The email account that you tried to reach does not exist".data,
   "address rejected".data,
   "user unknown".data,
   "mailbox not found".data,
   "recipient rejected".data,
   "no such user".data,
   "invalid recipient".data,
   "undeliverable".data]

/-- `/delivery.*failed/` matches starting at the head of `l` (already
case-folded): `delivery` is a prefix, and `failed` occurs after it with only
non-line-terminator characters in between.  Since no character of `failed` is
a line terminator, an occurrence inside the maximal line-terminator-free
prefix of the remainder is exactly an occurrence reachable by `.*`. -/
def deliveryFailedAt (l : List Char) : Bool :=
  "delivery".data.isPrefixOf l &&
    containsSeq "failed".data ((l.drop 8).takeWhile (fun c => !lineTerminator c))

/-- `/delivery.*failed/i.test` on an already case-folded character list:
try a match at every start position. -/
def deliveryFailedSearch : List Char → Bool
  | [] => false
  | c :: rest => deliveryFailedAt (c :: rest) || deliveryFailedSearch rest

/-- `cleaned` matches one of the nine patterns of `cleanBounceReason`. -/
def matchesFailurePattern (cleaned : List Char) : Bool :=
  failurePatterns.any (fun p => containsCI p cleaned) ||
    deliveryFailedSearch (cleaned.map lowerAscii)

/-- Consume one or more characters satisfying `p` (the regex piece `p+` with
maximal munch, which is exact here because each `p+` of the SMTP-code regex
is followed by a character class disjoint from `p`); returns the rest of the
input, or `none` when no character matched. -/
def dropMany1 (p : Char → Bool) : List Char → Option (List Char)
  | [] => none
  | c :: rest => if p c then some (rest.dropWhile p) else none

/-- `/^\d{3}\s+\d+\.\d+\.\d+/.test(cleaned)`: three ASCII digits, then
whitespace, then a dotted numeric status code, at the start of the text. -/
def smtpCodePrefix (l : List Char) : Bool :=
  match l with
  | a :: b :: c :: rest =>
    a.isDigit && b.isDigit && c.isDigit &&
      (match dropMany1 jsWhitespace rest with
       | none => false
       | some r1 =>
         match dropMany1 Char.isDigit r1 with
         | none => false
         | some r2 =>
           match r2 with
           | '.' :: r3 =>
             (match dropMany1 Char.isDigit r3 with
              | none => false
              | some r4 =>
                match r4 with
                | '.' :: r5 => (dropMany1 Char.isDigit r5).isSome
                | _ => false)
           | _ => false)
  | _ => false

/-- `cleaned.split(/[.!?]/)[0]`: the text before the first `.`, `!` or `?`
(the whole text when none occurs). -/
def firstSentenceOf (l : List Char) : List Char :=
  l.takeWhile (fun c => !(c == '.' || c == '!' || c == '?'))

/-- The `cleaned` text of `cleanBounceReason`: strip HTML tags, collapse
whitespace runs, trim. -/
def cleanedOf (r : String) : List Char :=
  jsTrim (collapseWs (stripTags r.data))

/-- `cleanBounceReason` (source lines 109–157).  The result pair is
`(summary, technical)`.  `if (!reason)` is true both for `null` and for the
empty string, hence the extra empty-string case. -/
def cleanBounceReason : Option String → String × Option String
  | none => ("", none)
  | some r =>
    if r == "" then ("", none)
    else if matchesFailurePattern (cleanedOf r) then
      ("The recipient's email address was not found or is invalid.",
       some (String.mk (cleanedOf r)))
    else if smtpCodePrefix (cleanedOf r) || containsCI "error code".data (cleanedOf r) then
      ("The email server rejected the message.", some (String.mk (cleanedOf r)))
    else if !(firstSentenceOf (cleanedOf r)).isEmpty
        && decide (10 < utf16Len (firstSentenceOf (cleanedOf r)))
        && decide (utf16Len (firstSentenceOf (cleanedOf r)) < 200) then
      (String.mk (firstSentenceOf (cleanedOf r) ++ ['.']),
       if cleanedOf r != firstSentenceOf (cleanedOf r) ++ ['.']
       then some (String.mk (cleanedOf r)) else none)
    else (String.mk (cleanedOf r), none)

/-- The function described by claim C1, written from the claim's words: null
maps to `('', null)`; otherwise the cleaned text is classified by (1) the
nine failure patterns, (2) the SMTP-code / `error code` tests, (3) the
first-sentence rule with length bounds 10 and 200, (4) the fallback returning
the cleaned text with no technical part. -/
def cleanBounceReasonSpec : Option String → String × Option String
  | none => ("", none)
  | some r =>
    if matchesFailurePattern (cleanedOf r) then
      ("The recipient's email address was not found or is invalid.",
       some (String.mk (cleanedOf r)))
    else if smtpCodePrefix (cleanedOf r) || containsCI "error code".data (cleanedOf r) then
      ("The email server rejected the message.", some (String.mk (cleanedOf r)))
    else if !(firstSentenceOf (cleanedOf r)).isEmpty
        && decide (10 < utf16Len (firstSentenceOf (cleanedOf r)))
        && decide (utf16Len (firstSentenceOf (cleanedOf r)) < 200) then
      (String.mk (firstSentenceOf (cleanedOf r) ++ ['.']),
       if cleanedOf r == firstSentenceOf (cleanedOf r) ++ ['.'] then none
       else some (String.mk (cleanedOf r)))
    else (String.mk (cleanedOf r), none)

/-- C1: `cleanBounceReason` computes exactly the case analysis stated in the
claim: `('', null)` for null input, and otherwise the four-way classification
of the cleaned text (failure patterns / server rejection / first sentence /
fallback), with the technical text as described. -/
theorem cleanBounceReason_matches_spec :
    ∀ reason : Option String, cleanBounceReason reason = cleanBounceReasonSpec reason := by
  intro reason
  cases reason with
  | none => rfl
  | some r =>
    by_cases hr : r = ""
    · subst hr
      decide
    · have hr' : (r == "") = false := by simpa using hr
      simp only [cleanBounceReason, cleanBounceReasonSpec, hr', Bool.false_eq_true, if_false]
      by_cases hc : cleanedOf r = firstSentenceOf (cleanedOf r) ++ ['.']
      · have hb2 : (cleanedOf r == firstSentenceOf (cleanedOf r) ++ ['.']) = true :=
          beq_iff_eq.mpr hc
        have hb1 : (cleanedOf r != firstSentenceOf (cleanedOf r) ++ ['.']) = false := by
          simp only [bne, hb2, Bool.not_true]
        rw [hb1, hb2]
        simp
      · have hb2 : (cleanedOf r == firstSentenceOf (cleanedOf r) ++ ['.']) = false := by
          simpa using hc
        have hb1 : (cleanedOf r != firstSentenceOf (cleanedOf r) ++ ['.']) = true := by
          simp only [bne, hb2, Bool.not_false]
        rw [hb1, hb2]
        simp

/-! ## Email history data model (interface `EmailHistoryItem`, source lines 41–63)

Timestamp columns (`sent_at` and friends) are ISO date strings in the source
and are read only through `new Date(x).getTime()`; the embedding represents
each of them directly by that epoch-millisecond value, as an `Int`. -/

structure EmailHistoryItem where
  id : String
  subject : String
  recipient_email : String
  recipient_name : Option String
  sender_email : String
  body : Option String
  status : String
  sent_at : Int
  opened_at : Option Int
  open_count : Option Int
  unique_opens : Option Int
  bounce_type : Option String
  bounce_reason : Option String
  bounced_at : Option Int
  is_valid_open : Option Bool
  reply_count : Option Int
  replied_at : Option Int
  last_reply_at : Option Int
  lead_id : Option String
  contact_id : Option String
  account_id : Option String
deriving DecidableEq

/-- JavaScript truthiness of a `string | null` value: `null` and the empty
string are falsy, every other string is truthy. -/
def jsTruthyStr : Option String → Bool
  | none => false
  | some s => s != ""

/-! ## `getBounceExplanation` (source lines 80–106) -/

inductive Severity where
  | error
  | warning
deriving DecidableEq

/-- The Lucide icon component placed in the `Icon` field, identified by
name. -/
inductive BounceIcon where
  | mailX
  | alertTriangle
  | xCircle
deriving DecidableEq

structure BounceExplanation where
  title : String
  subtitle : String
  description : String
  Icon : BounceIcon
  severity : Severity
deriving DecidableEq

/-- `getBounceExplanation` (source lines 80–106). -/
def getBounceExplanation (bounceType : Option String) (_bounceReason : Option String) :
    BounceExplanation :=
  if bounceType = some "hard" then
    { title := "Delivery Failed"
      subtitle := "Email address doesn't exist"
      description := "This email could not be delivered because the recipient's email address was not found or is invalid. Please verify the email address and try again with a correct one."
      Icon := .mailX
      severity := .error }
  else if bounceType = some "soft" then
    { title := "Delivery Delayed"
      subtitle := "Temporary delivery issue"
      description := "This email couldn't be delivered due to a temporary issue (e.g., full mailbox, server busy). The system may retry automatically."
      Icon := .alertTriangle
      severity := .warning }
  else
    { title := "Delivery Failed"
      subtitle := "Unable to deliver email"
      description := "This email could not be delivered to the recipient. The email address may be invalid or the recipient's server rejected the message."
      Icon := .xCircle
      severity := .error }

/-! ## `getStatusBadge` (source lines 274–351) -/

/-- The badge chosen by `getStatusBadge`, identified by its rendered label
(the bounce badge carries the title text supplied by
`getBounceExplanation`). -/
inductive BadgeKind where
  | verifying
  | bounced (title : String)
  | replied
  | suspicious
  | opened
  | delivered
  | sent
deriving DecidableEq

/-- `getStatusBadge` (source lines 274–351).  `now` is `Date.now()` in
epoch milliseconds.  `!bounce_type` and `status === 'bounced' || bounce_type`
use JavaScript truthiness, so the empty string behaves like `null`;
`reply_count && reply_count > 0` is falsy for `null` and `0`;
`email.is_valid_open === false` is a strict comparison, so `null` does not
count as `false`. -/
def getStatusBadge (now : Int) (email : EmailHistoryItem) : BadgeKind :=
  if email.status == "sent" && decide (now - email.sent_at < 60000)
      && !jsTruthyStr email.bounce_type then
    .verifying
  else if email.status == "bounced" || jsTruthyStr email.bounce_type then
    .bounced (getBounceExplanation email.bounce_type none).title
  else if email.status == "replied"
      || (match email.reply_count with
          | none => false
          | some n => n != 0 && decide (n > 0)) then
    .replied
  else if email.status == "opened" then
    (if email.is_valid_open == some false then .suspicious else .opened)
  else if email.status == "delivered" then
    .delivered
  else
    .sent

/-- The badge selection described by the amended claim C6: same precedence,
with "`bounce_type` is null" read as "null or empty" and "`bounce_type` is
non-null" read as "non-null and non-empty". -/
def getStatusBadgeAmended (now : Int) (email : EmailHistoryItem) : BadgeKind :=
  if email.status == "sent" && decide (now - email.sent_at < 60000)
      && (email.bounce_type == none || email.bounce_type == some "") then
    .verifying
  else if email.status == "bounced"
      || (email.bounce_type != none && email.bounce_type != some "") then
    .bounced (getBounceExplanation email.bounce_type none).title
  else if email.status == "replied" || decide (0 < email.reply_count.getD 0) then
    .replied
  else if email.status == "opened" then
    (if email.is_valid_open == some false then .suspicious else .opened)
  else if email.status == "delivered" then
    .delivered
  else
    .sent

/-! ## Realtime INSERT handling (source lines 213–224) -/

/-- The `entityType` prop: `'contact' | 'lead' | 'account'`. -/
inductive EntityType where
  | contact
  | lead
  | account
deriving DecidableEq

/-- The `belongsToEntity` check of the INSERT branch of the realtime
subscription (source lines 217–220). -/
def belongsToEntity (entityType : EntityType) (entityId : String)
    (newEmail : EmailHistoryItem) : Bool :=
  (entityType == .lead && newEmail.lead_id == some entityId) ||
  (entityType == .contact && newEmail.contact_id == some entityId) ||
  (entityType == .account && newEmail.account_id == some entityId)

/-- The INSERT branch of the realtime subscription (source lines 214–224):
`setEmails(prev => [newEmail, ...prev])` exactly when the row belongs to the
viewed entity, else the list is left alone. -/
def handleInsertEvent (entityType : EntityType) (entityId : String)
    (newEmail : EmailHistoryItem) (prev : List EmailHistoryItem) : List EmailHistoryItem :=
  if belongsToEntity entityType entityId newEmail then newEmail :: prev else prev

/-- The entity-id column of a row corresponding to the viewed entity type
(the claim's "entity-id field corresponding to the viewed entityType"). -/
def entityRef (entityType : EntityType) (e : EmailHistoryItem) : Option String :=
  match entityType with
  | .lead => e.lead_id
  | .contact => e.contact_id
  | .account => e.account_id

/-! ## `fetchEmails` (source lines 167–192)

The query itself runs on the remote service; its outcome is either an error
or a row list that may be null (`Except String (Option _)` below).  The
function's effect on component state is: on success `setEmails(data || [])`;
on error the `throw`/`catch` skips `setEmails` (the catch only logs); the
`finally` clause runs `setLoading(false)` on every path.  The result pair is
`(emails, loading)` after the call completes. -/

def fetchEmailsResult (outcome : Except String (Option (List EmailHistoryItem)))
    (prevEmails : List EmailHistoryItem) : List EmailHistoryItem × Bool :=
  match outcome with
  | .error _ => (prevEmails, false)
  | .ok data => (data.getD [], false)

/-! ## Dashboard customization dialog (`DashboardCustomizeModal`)

`WidgetKey` is a string-literal union in the source, but `widgetOrder` and
`visibleWidgets` reach the dialog from persisted data, so keys are modelled
as arbitrary strings; the initialization effect is what screens them against
the catalog.  The `icon` React node of a widget is identified by the name of
the Lucide component placed there. -/

inductive WidgetSize where
  | xs
  | small
  | medium
  | large
  | xl
deriving DecidableEq

structure DashboardWidget where
  key : String
  label : String
  icon : String
  visible : Bool
  size : WidgetSize
deriving DecidableEq

/-- The fixed widget catalog `DEFAULT_WIDGETS` (source lines 721–759). -/
def DEFAULT_WIDGETS : List DashboardWidget :=
  [{ key := "leads", label := "My Leads", icon := "FileText", visible := true, size := .small },
   { key := "contacts", label := "My Contacts", icon := "Users", visible := true, size := .small },
   { key := "deals", label := "My Deals", icon := "Briefcase", visible := true, size := .small },
   { key := "actionItems", label := "Action Items", icon := "Clock", visible := true, size := .small },
   { key := "quickActions", label := "Quick Actions", icon := "Zap", visible := true, size := .medium },
   { key := "upcomingMeetings", label := "Upcoming Meetings", icon := "Calendar", visible := true, size := .medium },
   { key := "taskReminders", label := "Task Reminders", icon := "Bell", visible := true, size := .medium },
   { key := "recentActivities", label := "Recent Activities", icon := "Activity", visible := true, size := .medium },
   { key := "performance", label := "My Performance", icon := "TrendingUp", visible := true, size := .large },
   { key := "leadStatus", label := "Lead Status Overview", icon := "BarChart3", visible := true, size := .large },
   { key := "salesTarget", label := "Sales Target", icon := "Target", visible := false, size := .medium },
   { key := "revenueChart", label := "Revenue Chart", icon := "LineChart", visible := false, size := .large },
   { key := "pipelineValue", label := "Pipeline Value", icon := "DollarSign", visible := false, size := .small },
   { key := "conversionRate", label := "Conversion Rate", icon := "Percent", visible := false, size := .small },
   { key := "dealForecast", label := "Deal Forecast", icon := "ArrowUpRight", visible := false, size := .large },
   { key := "emailStats", label := "Email Statistics", icon := "Mail", visible := false, size := .medium },
   { key := "callLog", label := "Call Log", icon := "PhoneCall", visible := false, size := .medium },
   { key := "teamActivity", label := "Team Activity", icon := "MessageSquare", visible := false, size := .medium },
   { key := "completedTasks", label := "Completed Tasks", icon := "CheckCircle", visible := false, size := .small },
   { key := "overdueItems", label := "Overdue Items", icon := "AlertTriangle", visible := false, size := .small },
   { key := "taskProgress", label := "Task Progress", icon := "ListTodo", visible := false, size := .medium },
   { key := "topDeals", label := "Top Deals", icon := "Trophy", visible := false, size := .medium },
   { key := "regionStats", label := "Region Statistics", icon := "Globe", visible := false, size := .large },
   { key := "geoDistribution", label := "Geo Distribution", icon := "MapPin", visible := false, size := .large },
   { key := "leadSources", label := "Lead Sources", icon := "Filter", visible := false, size := .medium },
   { key := "accountHealth", label := "Account Health", icon := "Building2", visible := false, size := .medium },
   { key := "customerRetention", label := "Customer Retention", icon := "Star", visible := false, size := .small },
   { key := "winLossRatio", label := "Win/Loss Ratio", icon := "PieChart", visible := false, size := .small },
   { key := "salesVelocity", label := "Sales Velocity", icon := "Gauge", visible := false, size := .medium },
   { key := "growthTrend", label := "Growth Trend", icon := "TrendingUp", visible := false, size := .large }]

/-- The keys of the catalog, in catalog order. -/
def catalogKeys : List String := DEFAULT_WIDGETS.map (·.key)

/-- `widgetSizes` prop: a partial map from widget key to saved size (the
`WidgetSizeConfig` object).  `widgetSizes[key] || defaultWidget.size` is
`getD` because every `WidgetSize` value is a nonempty string and hence
truthy. -/
def WidgetSizeConfig : Type := String → Option WidgetSize

/-- Building one entry of the initialization effect (source lines 790–794 and
801–805): the catalog widget with visibility taken from `visibleWidgets`
membership and size from `widgetSizes` with the catalog default as
fallback. -/
def adjustWidget (visibleWidgets : List String) (widgetSizes : WidgetSizeConfig)
    (w : DashboardWidget) : DashboardWidget :=
  { w with visible := visibleWidgets.contains w.key, size := (widgetSizes w.key).getD w.size }

/-- First loop of the initialization effect (source lines 787–796): walk
`widgetOrder`, and for each key that has a catalog entry push the adjusted
widget (keys without a catalog entry are dropped). -/
def orderedFromSaved (visibleWidgets : List String) (widgetOrder : List String)
    (widgetSizes : WidgetSizeConfig) : List DashboardWidget :=
  widgetOrder.filterMap (fun key =>
    (DEFAULT_WIDGETS.find? (fun w => w.key == key)).map
      (adjustWidget visibleWidgets widgetSizes))

/-- Second loop of the initialization effect (source lines 799–807): walk the
catalog and append (adjusted) every widget whose key is not yet present in
the accumulated list. -/
def appendMissing (visibleWidgets : List String) (widgetSizes : WidgetSizeConfig)
    (defaults : List DashboardWidget) (acc : List DashboardWidget) : List DashboardWidget :=
  defaults.foldl (fun acc w =>
    if (acc.find? (fun ow => ow.key == w.key)).isSome then acc
    else acc ++ [adjustWidget visibleWidgets widgetSizes w]) acc

/-- The initialization effect of `DashboardCustomizeModal` (source lines
782–810): the widget list displayed by the dialog. -/
def initWidgets (visibleWidgets : List String) (widgetOrder : List String)
    (widgetSizes : WidgetSizeConfig) : List DashboardWidget :=
  appendMissing visibleWidgets widgetSizes DEFAULT_WIDGETS
    (orderedFromSaved visibleWidgets widgetOrder widgetSizes)

/-- `toggleWidget` (source lines 812–816). -/
def toggleWidget (key : String) (prev : List DashboardWidget) : List DashboardWidget :=
  prev.map (fun w => if w.key == key then { w with visible := !w.visible } else w)

/-- `changeSize` (source lines 818–822). -/
def changeSize (key : String) (size : WidgetSize) (prev : List DashboardWidget) :
    List DashboardWidget :=
  prev.map (fun w => if w.key == key then { w with size := size } else w)

/-- The `DropResult` fields read by `handleDragEnd`: the source index of the
dragged row and the destination index, absent when the drag ended outside a
droppable. -/
structure DropResult where
  source : Nat
  destination : Option Nat
deriving DecidableEq

/-- `handleDragEnd` (source lines 824–832): no destination returns without
changing state; otherwise `splice(source, 1)` removes the dragged item and
`splice(destination, 0, item)` re-inserts it (JavaScript `splice` clamps
both indices to the array length, which `take`/`drop` also do).  An
out-of-range source index would make the JavaScript destructure `undefined`
and insert it; that cannot arise from a drag of a rendered row, and such a
list is not representable here, so that branch returns the list
unchanged. -/
def handleDragEnd (result : DropResult) (widgets : List DashboardWidget) :
    List DashboardWidget :=
  match result.destination with
  | none => widgets
  | some dest =>
    match widgets.get? result.source with
    | none => widgets
    | some item =>
      let items := widgets.take result.source ++ widgets.drop (result.source + 1)
      items.take dest ++ item :: items.drop dest

/-- The arguments `handleSave` passes to `onSave` (source lines 834–842). -/
structure SavePayload where
  visible : List String
  order : List String
  sizes : WidgetSizeConfig

/-- One step of the forEach that builds the `sizes` object in `handleSave`:
`sizes[w.key] = w.size`, modelled as an update of a partial map, so a later
widget with the same key overwrites an earlier one, as in JavaScript. -/
def sizesFoldStep (m : WidgetSizeConfig) (w : DashboardWidget) : WidgetSizeConfig :=
  fun k => if k == w.key then some w.size else m k

/-- `handleSave` (source lines 834–842): `visible` keeps the keys of the
checked widgets in display order, `order` keeps all keys in display order,
and `sizes` is the forEach of `sizesFoldStep` over the list. -/
def handleSave (widgets : List DashboardWidget) : SavePayload :=
  { visible := (widgets.filter (·.visible)).map (·.key)
    order := widgets.map (·.key)
    sizes := widgets.foldl sizesFoldStep (fun _ => none) }

/-- `handleReset` (source lines 844–846): the state it installs. -/
def resetWidgets : List DashboardWidget :=
  DEFAULT_WIDGETS.map (fun w => { w with visible := true })

/-! ## Theorems for the email-activity viewer -/

/-- C2: `getBounceExplanation` classifies by `bounce_type` alone — the
`bounceReason` argument never affects the result — with `'hard'` giving the
permanent-failure explanation (title "Delivery Failed", subtitle "Email
address doesn't exist", severity error), `'soft'` the temporary-issue
explanation (title "Delivery Delayed", severity warning), and every other
value, `null` included, the generic failure explanation (title "Delivery
Failed", severity error). -/
theorem getBounceExplanation_classifies :
    ∀ bounceType bounceReason bounceReason' : Option String,
      getBounceExplanation bounceType bounceReason
          = getBounceExplanation bounceType bounceReason' ∧
      getBounceExplanation bounceType bounceReason
          = (if bounceType = some "hard" then getBounceExplanation (some "hard") none
             else if bounceType = some "soft" then getBounceExplanation (some "soft") none
             else getBounceExplanation none none) ∧
      (getBounceExplanation (some "hard") none).title = "Delivery Failed" ∧
      (getBounceExplanation (some "hard") none).subtitle = "Email address doesn't exist" ∧
      (getBounceExplanation (some "hard") none).severity = .error ∧
      (getBounceExplanation (some "soft") none).title = "Delivery Delayed" ∧
      (getBounceExplanation (some "soft") none).severity = .warning ∧
      (getBounceExplanation none none).title = "Delivery Failed" ∧
      (getBounceExplanation none none).severity = .error := by
  intro bt br br'
  refine ⟨rfl, ?_, rfl, rfl, rfl, rfl, rfl, rfl, rfl⟩
  by_cases h1 : bt = some "hard"
  · simp [getBounceExplanation, h1]
  · by_cases h2 : bt = some "soft" <;> simp [getBounceExplanation, h1, h2]

/-- An email whose `bounce_type` is the empty string — non-null, but falsy in
JavaScript — with status `'opened'`. -/
def emptyBounceTypeEmail : EmailHistoryItem :=
  { id := "e1", subject := "s", recipient_email := "r@example.com",
    recipient_name := none, sender_email := "me@example.com", body := none,
    status := "opened", sent_at := 0, opened_at := some 5, open_count := some 1,
    unique_opens := some 1, bounce_type := some "", bounce_reason := none,
    bounced_at := none, is_valid_open := none, reply_count := none,
    replied_at := none, last_reply_at := none, lead_id := none,
    contact_id := none, account_id := none }

/-- C6 counterexample: the claim demands the bounce badge whenever
`bounce_type` is non-null (and the verifying case does not apply), but for
`bounce_type = ''` — non-null — with status `'opened'` the code shows the
Opened badge: `status === 'bounced' || bounce_type` is falsy for the empty
string. -/
theorem getStatusBadge_empty_bounce_type_not_bounced :
    emptyBounceTypeEmail.bounce_type ≠ none ∧
    emptyBounceTypeEmail.status = "opened" ∧
    getStatusBadge 1000000 emptyBounceTypeEmail = .opened := by
  refine ⟨by decide, rfl, by decide⟩

/-- C6 (amended): `getStatusBadge` selects exactly one badge by the claimed
precedence — Verifying, then the bounce badge titled by
`getBounceExplanation`, then Replied, then Suspicious/Opened, then Delivered,
then Sent — with "`bounce_type` is null" read as "null or empty" and
"`bounce_type` is non-null" read as "non-null and non-empty". -/
theorem getStatusBadge_matches_amended :
    ∀ (now : Int) (email : EmailHistoryItem),
      getStatusBadge now email = getStatusBadgeAmended now email := by
  intro now email
  have h1 : (email.bounce_type == none || email.bounce_type == some "")
      = !jsTruthyStr email.bounce_type := by
    cases email.bounce_type with
    | none => rfl
    | some s => cases hse : (s == "") <;> simp [jsTruthyStr, bne, hse]
  have h2 : (email.bounce_type != none && email.bounce_type != some "")
      = jsTruthyStr email.bounce_type := by
    cases email.bounce_type with
    | none => rfl
    | some s => cases hse : (s == "") <;> simp [jsTruthyStr, bne, hse]
  have h3 : decide (0 < email.reply_count.getD 0)
      = (match email.reply_count with
         | none => false
         | some n => n != 0 && decide (n > 0)) := by
    cases email.reply_count with
    | none => rfl
    | some n =>
      by_cases hn : 0 < n
      · have hn' : n ≠ 0 := by omega
        simp [hn, hn']
      · simp [hn]
  simp only [getStatusBadge, getStatusBadgeAmended, h1, h2, h3]

/-- C7: a realtime INSERT prepends the new row exactly when the row's
entity-id column for the viewed entity type (`lead_id` for leads,
`contact_id` for contacts, `account_id` for accounts) equals the viewed
entity id; otherwise the list is unchanged, so rows of other entities never
enter it through an INSERT event. -/
theorem handleInsertEvent_spec :
    ∀ (entityType : EntityType) (entityId : String) (newEmail : EmailHistoryItem)
      (prev : List EmailHistoryItem),
      handleInsertEvent entityType entityId newEmail prev
          = (if entityRef entityType newEmail = some entityId
             then newEmail :: prev else prev) ∧
      (handleInsertEvent entityType entityId newEmail prev = newEmail :: prev
        ↔ entityRef entityType newEmail = some entityId) := by
  intro et eid e prev
  have hb : belongsToEntity et eid e = (entityRef et e == some eid) := by
    have c1 : (EntityType.contact == EntityType.lead) = false := rfl
    have c2 : (EntityType.contact == EntityType.account) = false := rfl
    have c3 : (EntityType.lead == EntityType.contact) = false := rfl
    have c4 : (EntityType.lead == EntityType.account) = false := rfl
    cases et <;> simp [belongsToEntity, entityRef, c1, c2, c3, c4]
  by_cases h : entityRef et e = some eid
  · constructor
    · rw [handleInsertEvent, hb]
      simp [h]
    · rw [handleInsertEvent, hb]
      simp [h]
  · have hfalse : (entityRef et e == some eid) = false := by simpa using h
    constructor
    · rw [handleInsertEvent, hb, hfalse]
      simp [h]
    · rw [handleInsertEvent, hb, hfalse]
      simp only [Bool.false_eq_true, if_false]
      constructor
      · intro hEq
        exact absurd hEq.symm (List.cons_ne_self e prev)
      · intro hEq
        exact absurd hEq h

/-- C10: `fetchEmails` leaves the email list unchanged when the query errors
(the catch only logs), replaces it by the rows on success with a null result
becoming the empty list, and on every outcome finishes with `loading`
false. -/
theorem fetchEmails_spec :
    ∀ prevEmails : List EmailHistoryItem,
      (∀ msg, fetchEmailsResult (.error msg) prevEmails = (prevEmails, false)) ∧
      fetchEmailsResult (.ok none) prevEmails = ([], false) ∧
      (∀ rows, fetchEmailsResult (.ok (some rows)) prevEmails = (rows, false)) ∧
      (∀ outcome, (fetchEmailsResult outcome prevEmails).2 = false) := by
  intro prev
  refine ⟨fun _ => rfl, rfl, fun _ => rfl, fun outcome => ?_⟩
  cases outcome <;> rfl

/-! ## Theorems for the customization dialog -/

/-- C8: `handleReset` installs all catalog widgets in catalog order with
their default sizes (and labels), but with every visibility flag true —
including for widgets whose catalog entry has `visible: false`, of which
there is at least one. -/
theorem handleReset_spec :
    resetWidgets.map (·.key) = DEFAULT_WIDGETS.map (·.key) ∧
    resetWidgets.map (·.size) = DEFAULT_WIDGETS.map (·.size) ∧
    resetWidgets.map (·.label) = DEFAULT_WIDGETS.map (·.label) ∧
    (∀ w ∈ resetWidgets, w.visible = true) ∧
    (∃ w ∈ DEFAULT_WIDGETS, w.visible = false) := by
  refine ⟨?_, ?_, ?_, ?_, ?_⟩ <;> decide

/-- C9: `toggleWidget key` relates the new list to the old positionwise:
every widget keeps its key, label, icon and size, the widget whose key is
`key` has its visibility negated, widgets with other keys keep theirs — and
applying the toggle twice restores the original list. -/
theorem toggleWidget_spec :
    ∀ (key : String) (widgets : List DashboardWidget),
      List.Forall₂
        (fun w' w =>
          w'.key = w.key ∧ w'.label = w.label ∧ w'.icon = w.icon ∧ w'.size = w.size ∧
          w'.visible = (if w.key == key then !w.visible else w.visible))
        (toggleWidget key widgets) widgets ∧
      toggleWidget key (toggleWidget key widgets) = widgets := by
  intro k ws
  constructor
  · simp only [toggleWidget]
    induction ws with
    | nil => exact List.Forall₂.nil
    | cons w t ih =>
      simp only [List.map_cons]
      refine List.Forall₂.cons ?_ ih
      by_cases h : w.key = k
      · subst h
        simp
      · simp [h]
  · simp only [toggleWidget, List.map_map]
    conv_rhs => rw [(List.map_id ws).symm]
    refine List.map_congr_left ?_
    intro w _
    simp only [Function.comp]
    by_cases h : w.key = k
    · subst h
      simp
    · simp [h]

/-- `insertIdx` at an index within the list is "take, insert, drop" — the
behaviour of `splice(n, 0, a)` for in-range `n`. -/
theorem insertIdx_eq_take_append_cons_drop {α : Type} (n : Nat) (a : α) (l : List α)
    (h : n ≤ l.length) : l.insertIdx n a = l.take n ++ a :: l.drop n := by
  induction l generalizing n with
  | nil =>
    cases n with
    | zero => rfl
    | succ m => exact absurd h (by simp)
  | cons b t ih =>
    cases n with
    | zero => rfl
    | succ m =>
      rw [List.insertIdx_succ_cons, List.take_succ_cons, List.drop_succ_cons,
        ih m (by simpa using h)]
      rfl

/-- A completed drag with a valid source row permutes the widget list. -/
theorem handleDragEnd_perm (src dst : Nat) (ws : List DashboardWidget)
    (h : src < ws.length) : List.Perm (handleDragEnd ⟨src, some dst⟩ ws) ws := by
  have hget : ws.get? src = some ws[src] := by
    rw [List.get?_eq_getElem?, List.getElem?_eq_getElem h]
  have hws : ws = ws.take src ++ ws[src] :: ws.drop (src + 1) := by
    conv_lhs => rw [← List.take_append_drop src ws]
    rw [List.drop_eq_getElem_cons h]
  simp only [handleDragEnd, hget]
  have p1 : List.Perm
      ((ws.take src ++ ws.drop (src + 1)).take dst ++
        ws[src] :: (ws.take src ++ ws.drop (src + 1)).drop dst)
      (ws[src] :: ((ws.take src ++ ws.drop (src + 1)).take dst ++
        (ws.take src ++ ws.drop (src + 1)).drop dst)) := List.perm_middle
  rw [List.take_append_drop] at p1
  refine p1.trans ?_
  have p2 : List.Perm (ws[src] :: (ws.take src ++ ws.drop (src + 1)))
      (ws.take src ++ ws[src] :: ws.drop (src + 1)) := List.perm_middle.symm
  rw [← hws] at p2
  exact p2

/-- C3: a drag with no destination leaves the widget list unchanged; a
completed drag with in-range indices produces exactly "remove at the source
index, re-insert at the destination index", and in particular a permutation
of the original list — no widget is added, lost, or duplicated. -/
theorem handleDragEnd_spec :
    ∀ (src dst : Nat) (widgets : List DashboardWidget),
      (handleDragEnd ⟨src, none⟩ widgets = widgets) ∧
      (src < widgets.length →
        List.Perm (handleDragEnd ⟨src, some dst⟩ widgets) widgets) ∧
      (∀ h : src < widgets.length, dst < widgets.length →
        handleDragEnd ⟨src, some dst⟩ widgets
          = (widgets.eraseIdx src).insertIdx dst (widgets.get ⟨src, h⟩)) := by
  intro src dst ws
  refine ⟨rfl, fun h => handleDragEnd_perm src dst ws h, fun h hdst => ?_⟩
  have hget : ws.get? src = some ws[src] := by
    rw [List.get?_eq_getElem?, List.getElem?_eq_getElem h]
  have hlen : dst ≤ (ws.eraseIdx src).length := by
    rw [List.eraseIdx_eq_take_drop_succ]
    simp only [List.length_append, List.length_take, List.length_drop]
    omega
  rw [insertIdx_eq_take_append_cons_drop dst (ws.get ⟨src, h⟩) _ hlen]
  simp only [handleDragEnd, hget, List.eraseIdx_eq_take_drop_succ]
  rfl

/-- C3 witness: moving the first catalog widget one position down. -/
theorem handleDragEnd_spec_witness :
    List.Perm (handleDragEnd ⟨0, some 1⟩ DEFAULT_WIDGETS) DEFAULT_WIDGETS ∧
    handleDragEnd ⟨0, some 1⟩ DEFAULT_WIDGETS
      = (DEFAULT_WIDGETS.eraseIdx 0).insertIdx 1 (DEFAULT_WIDGETS.get ⟨0, by decide⟩) :=
  ⟨(handleDragEnd_spec 0 1 DEFAULT_WIDGETS).2.1 (by decide),
   (handleDragEnd_spec 0 1 DEFAULT_WIDGETS).2.2 (by decide) (by decide)⟩

/-- Keys not written by any widget of the list are untouched by the `sizes`
forEach. -/
theorem sizesFold_untouched :
    ∀ (ws : List DashboardWidget) (m : WidgetSizeConfig) (k : String),
      k ∉ ws.map (·.key) → ws.foldl sizesFoldStep m k = m k := by
  intro ws
  induction ws with
  | nil => intro m k _; rfl
  | cons w t ih =>
    intro m k hk
    simp only [List.map_cons, List.mem_cons, not_or] at hk
    simp only [List.foldl_cons]
    rw [ih _ k hk.2]
    simp [sizesFoldStep, hk.1]

/-- When the keys of the list are distinct, the `sizes` forEach records every
widget's size at its key. -/
theorem sizesFold_mem :
    ∀ (ws : List DashboardWidget) (m : WidgetSizeConfig),
      (ws.map (·.key)).Nodup → ∀ w ∈ ws, ws.foldl sizesFoldStep m w.key = some w.size := by
  intro ws
  induction ws with
  | nil => intro m _ w hw; cases hw
  | cons x t ih =>
    intro m h w hw
    simp only [List.map_cons, List.nodup_cons] at h
    simp only [List.foldl_cons]
    rcases List.mem_cons.mp hw with rfl | hmem
    · rw [sizesFold_untouched t _ w.key h.1]
      simp [sizesFoldStep]
    · exact ih _ h.2 w hmem

/-- C5: `handleSave` passes `order` = the keys of the widget list in display
order, `visible` = exactly the keys of the widgets whose visible flag is true
in that same order — a subsequence of `order` — and, whenever the list's keys
are distinct (the dialog's invariant), a `sizes` map assigning to every key
in the list that widget's current size. -/
theorem handleSave_spec :
    ∀ widgets : List DashboardWidget,
      (handleSave widgets).order = widgets.map (·.key) ∧
      (handleSave widgets).visible = (widgets.filter (·.visible)).map (·.key) ∧
      List.Sublist (handleSave widgets).visible (handleSave widgets).order ∧
      ((widgets.map (·.key)).Nodup →
        ∀ w ∈ widgets, (handleSave widgets).sizes w.key = some w.size) := by
  intro ws
  refine ⟨rfl, rfl, ?_, ?_⟩
  · exact List.Sublist.map _ (List.filter_sublist ws)
  · intro h w hw
    exact sizesFold_mem ws _ h w hw

/-- C5 witness: saving the catalog records the size of the first widget. -/
theorem handleSave_spec_witness :
    (DEFAULT_WIDGETS.map (·.key)).Nodup ∧
    (handleSave DEFAULT_WIDGETS).sizes "leads" = some WidgetSize.small :=
  ⟨by decide,
   (handleSave_spec DEFAULT_WIDGETS).2.2.2 (by decide)
     { key := "leads", label := "My Leads", icon := "FileText",
       visible := true, size := WidgetSize.small } (by decide)⟩

/-- The keys produced by the first initialization loop are the saved keys
that have a catalog entry, in saved order (adjusting a widget does not change
its key). -/
theorem keys_orderedFromSaved (vw : List String) (sz : WidgetSizeConfig) :
    ∀ wo : List String,
      (orderedFromSaved vw wo sz).map (·.key)
        = wo.filter (fun k => (DEFAULT_WIDGETS.find? (fun w => w.key == k)).isSome) := by
  intro wo
  induction wo with
  | nil => rfl
  | cons k t ih =>
    simp only [orderedFromSaved, List.filterMap_cons] at ih ⊢
    cases hf : DEFAULT_WIDGETS.find? (fun w => w.key == k) with
    | none => simp [hf, ih, List.filter_cons]
    | some dw =>
      have hk : dw.key = k := by
        have := List.find?_some hf
        simpa using this
      simp [hf, List.filter_cons, adjustWidget, hk, ih]

/-- Every key kept by the first initialization loop is a catalog key. -/
theorem keys_orderedFromSaved_subset (vw : List String) (sz : WidgetSizeConfig)
    (wo : List String) :
    ∀ k, k ∈ (orderedFromSaved vw wo sz).map (·.key) → k ∈ catalogKeys := by
  intro k hk
  rw [keys_orderedFromSaved] at hk
  have h1 := List.of_mem_filter hk
  rw [List.find?_isSome] at h1
  obtain ⟨w, hw, hwk⟩ := h1
  have hkey : w.key = k := by simpa using hwk
  subst hkey
  exact List.mem_map.mpr ⟨w, hw, rfl⟩

/-- The second initialization loop keeps the accumulated keys duplicate-free
and ends with exactly the union of the accumulated keys and the walked
default keys: a default whose key is already present is skipped, the others
are appended once. -/
theorem appendMissing_keys (vw : List String) (sz : WidgetSizeConfig) :
    ∀ (defaults acc : List DashboardWidget),
      (acc.map (·.key)).Nodup →
      ((appendMissing vw sz defaults acc).map (·.key)).Nodup ∧
        ∀ k, k ∈ (appendMissing vw sz defaults acc).map (·.key)
          ↔ k ∈ acc.map (·.key) ∨ k ∈ defaults.map (·.key) := by
  intro defaults
  induction defaults with
  | nil =>
    intro acc hacc
    exact ⟨hacc, fun k => by simp [appendMissing]⟩
  | cons w t ih =>
    intro acc hacc
    by_cases hmem : (acc.find? (fun ow => ow.key == w.key)).isSome = true
    · have hex : ∃ x ∈ acc, x.key = w.key := by
        rw [List.find?_isSome] at hmem
        obtain ⟨ow, how, hk⟩ := hmem
        exact ⟨ow, how, by simpa using hk⟩
      have hstep : appendMissing vw sz (w :: t) acc = appendMissing vw sz t acc := by
        simp [appendMissing, List.foldl_cons, hex]
      have hin : w.key ∈ acc.map (·.key) := by
        rw [List.find?_isSome] at hmem
        obtain ⟨ow, how, hk⟩ := hmem
        have hkey : ow.key = w.key := by simpa using hk
        exact hkey ▸ List.mem_map.mpr ⟨ow, how, rfl⟩
      rw [hstep]
      obtain ⟨hn, hm⟩ := ih acc hacc
      refine ⟨hn, fun k => ?_⟩
      rw [hm k]
      simp only [List.map_cons, List.mem_cons]
      constructor
      · rintro (h | h)
        · exact Or.inl h
        · exact Or.inr (Or.inr h)
      · rintro (h | h | h)
        · exact Or.inl h
        · exact Or.inl (h ▸ hin)
        · exact Or.inr h
    · have hex : ¬∃ x ∈ acc, x.key = w.key := by
        intro hcon
        obtain ⟨ow, how, hk⟩ := hcon
        exact hmem (List.find?_isSome.mpr ⟨ow, how, by simp [hk]⟩)
      have hstep : appendMissing vw sz (w :: t) acc
          = appendMissing vw sz t (acc ++ [adjustWidget vw sz w]) := by
        simp [appendMissing, List.foldl_cons, hex]
      have hnotin : w.key ∉ acc.map (·.key) := by
        intro hcon
        apply hmem
        rw [List.find?_isSome]
        obtain ⟨ow, how, hk⟩ := List.mem_map.mp hcon
        exact ⟨ow, how, by simp [hk]⟩
      have hacc' : ((acc ++ [adjustWidget vw sz w]).map (·.key)).Nodup := by
        have hone : (acc.map (·.key) ++ [w.key]).Nodup := by
          rw [List.nodup_append]
          refine ⟨hacc, List.nodup_singleton _, ?_⟩
          intro a ha hb
          have : a = w.key := by simpa using hb
          exact hnotin (this ▸ ha)
        simpa [List.map_append, adjustWidget] using hone
      obtain ⟨hn, hm⟩ := ih _ hacc'
      rw [hstep]
      refine ⟨hn, fun k => ?_⟩
      rw [hm k]
      simp only [List.map_append, List.map_cons, List.mem_append, List.mem_cons,
        List.map_nil, List.mem_singleton, adjustWidget]
      tauto

/-- The catalog keys are pairwise distinct. -/
theorem catalogKeys_nodup : catalogKeys.Nodup := by decide

/-- When the saved order has no duplicate key, the initialization effect
produces a list whose keys are a permutation of the catalog keys. -/
theorem initWidgets_keys_perm (vw wo : List String) (sz : WidgetSizeConfig)
    (h : wo.Nodup) :
    List.Perm ((initWidgets vw wo sz).map (·.key)) catalogKeys := by
  have hacc : ((orderedFromSaved vw wo sz).map (·.key)).Nodup := by
    rw [keys_orderedFromSaved]
    exact h.filter _
  obtain ⟨hn, hm⟩ :=
    appendMissing_keys vw sz DEFAULT_WIDGETS (orderedFromSaved vw wo sz) hacc
  have hinit : initWidgets vw wo sz
      = appendMissing vw sz DEFAULT_WIDGETS (orderedFromSaved vw wo sz) := rfl
  rw [hinit, List.perm_ext_iff_of_nodup hn catalogKeys_nodup]
  intro k
  rw [hm k]
  constructor
  · rintro (hk | hk)
    · exact keys_orderedFromSaved_subset vw sz wo k hk
    · exact hk
  · intro hk
    exact Or.inr hk

/-- C4 counterexample: the claim asserts the key-set property for every
`widgetOrder`, but a saved order with a duplicated key — here
`['leads', 'leads']` — makes the first initialization loop push the `leads`
widget twice (the only duplicate screening is in the second loop), so `leads`
appears twice rather than exactly once. -/
theorem initWidgets_duplicate_key :
    ((initWidgets [] ["leads", "leads"] (fun _ => none)).map (·.key)).count "leads" = 2 := by
  decide

/-- C4 (amended): provided the saved `widgetOrder` contains no duplicate
keys, the initialization effect yields a widget list whose keys are exactly
the catalog keys, each exactly once (a permutation of `catalogKeys`: unknown
saved keys are dropped, missing catalog widgets are appended); and every
dialog operation preserves this key-set — toggling and resizing keep the key
list unchanged, a completed drag with a valid source row permutes it, a drag
with no destination leaves the list untouched, and reset installs exactly
the catalog keys. -/
theorem widgetList_keyset_invariant :
    (∀ (visibleWidgets widgetOrder : List String) (widgetSizes : WidgetSizeConfig),
      widgetOrder.Nodup →
      List.Perm ((initWidgets visibleWidgets widgetOrder widgetSizes).map (·.key))
        catalogKeys) ∧
    (∀ (key : String) (ws : List DashboardWidget),
      (toggleWidget key ws).map (·.key) = ws.map (·.key)) ∧
    (∀ (key : String) (size : WidgetSize) (ws : List DashboardWidget),
      (changeSize key size ws).map (·.key) = ws.map (·.key)) ∧
    (∀ (src dst : Nat) (ws : List DashboardWidget), src < ws.length →
      List.Perm ((handleDragEnd ⟨src, some dst⟩ ws).map (·.key)) (ws.map (·.key))) ∧
    (∀ (s : Nat) (ws : List DashboardWidget), handleDragEnd ⟨s, none⟩ ws = ws) ∧
    List.Perm (resetWidgets.map (·.key)) catalogKeys := by
  refine ⟨fun vw wo sz h => initWidgets_keys_perm vw wo sz h, ?_, ?_, ?_,
    fun _ _ => rfl, ?_⟩
  · intro k ws
    simp only [toggleWidget, List.map_map]
    refine List.map_congr_left ?_
    intro w _
    simp only [Function.comp]
    by_cases h : w.key = k
    · subst h
      simp
    · simp [h]
  · intro k s ws
    simp only [changeSize, List.map_map]
    refine List.map_congr_left ?_
    intro w _
    simp only [Function.comp]
    by_cases h : w.key = k
    · subst h
      simp
    · simp [h]
  · intro src dst ws h
    exact (handleDragEnd_perm src dst ws h).map (·.key)
  · exact (by decide : resetWidgets.map (·.key) = catalogKeys) ▸ List.Perm.refl _

/-- C4 witness: a singleton saved order and a concrete drag. -/
theorem widgetList_keyset_invariant_witness :
    List.Perm ((initWidgets [] ["leads"] (fun _ => none)).map (·.key)) catalogKeys ∧
    List.Perm ((handleDragEnd ⟨0, some 3⟩ DEFAULT_WIDGETS).map (·.key))
      (DEFAULT_WIDGETS.map (·.key)) :=
  ⟨widgetList_keyset_invariant.1 [] ["leads"] (fun _ => none) (by decide),
   widgetList_keyset_invariant.2.2.2.1 0 3 DEFAULT_WIDGETS (by decide)⟩
